import Mathlib

/-
Verification of the Orbit repository (src/orbit.py, src/dashboard.py):
a shallow embedding of the key-pool rotation, the safe-generation retry
loop, the GitHub-backed config store, the chaos roller bands, the quiz
JSON handling, and the poll-emission loop, together with theorems about
the specified behaviours.
-/

set_option autoImplicit false

namespace Orbit

/-- Characters of a string, the representation used for raw error texts and
key strings throughout the embedding. -/
def chars (s : String) : List Char := s.toList

/-- Python `needle in hay` substring test on character lists
(used by the dispatcher's error classification, orbit.py lines 136-148). -/
def strIn (needle : List Char) : List Char → Bool
  | [] => needle.isEmpty
  | c :: rest => needle.isPrefixOf (c :: rest) || strIn needle rest

/-- Python `s.lower()` (dashboard.py line 93 lowers the error text before
searching for the "leaked" marker). -/
def lowerStr (s : List Char) : List Char := s.map Char.toLower

/-- Python whitespace for `str.strip()`. -/
def isPySpace (c : Char) : Bool :=
  c = ' ' || c = '\t' || c = '\n' || c = '\r' || c = '\x0b' || c = '\x0c'

/-- Python `s.strip()`: drop leading and trailing whitespace
(orbit.py line 51/64, dashboard.py lines 25/34). -/
def pyStrip (cs : List Char) : List Char :=
  ((cs.dropWhile isPySpace).reverse.dropWhile isPySpace).reverse

/-- Python `s.split(",")`: split on every comma, keeping empty pieces
(orbit.py line 64, dashboard.py lines 25/34). -/
def splitComma : List Char → List (List Char)
  | [] => [[]]
  | c :: rest =>
    if c = ',' then [] :: splitComma rest
    else
      match splitComma rest with
      | [] => [[c]]
      | p :: ps => (c :: p) :: ps

/-- Construction of GEMINI_API_KEYS from the raw key string:
`[k.strip() for k in KEYS_STRING.split(",")] if KEYS_STRING else []`
(orbit.py line 64; dashboard.py lines 32-34 build the same list).
An absent/empty environment value is the empty-string case. -/
def buildKeys (keysString : List Char) : List (List Char) :=
  if keysString = [] then []
  else (splitComma keysString).map pyStrip

/-- Process-global key/model state: CURRENT_KEY_INDEX (orbit.py line 72,
dashboard.py `st.session_state.key_index`) and the cached `model` global
(orbit.py line 125, dashboard.py line 83). -/
structure KeyState where
  keyIndex : Nat
  model : String
deriving DecidableEq, Repr

/-- `rotate_key()` (orbit.py lines 85-94, dashboard.py lines 51-59): when the
pool has more than one credential it advances the index with wraparound,
reconfigures the client and reassigns the cached model with a fresh
`get_valid_model()` result (`freshModel` stands for that network-dependent
result); otherwise it returns false and changes nothing. -/
def rotate_key (keys : List String) (freshModel : String) (s : KeyState) :
    Bool × KeyState :=
  if 1 < keys.length then
    (true, { keyIndex := (s.keyIndex + 1) % keys.length, model := freshModel })
  else
    (false, s)

/-- `rotate_key()` iterated n times; `fresh` supplies the model returned by
each rescans of `get_valid_model()`. -/
def rotateN (keys : List String) (fresh : Nat → String) : Nat → KeyState → KeyState
  | 0, s => s
  | n + 1, s => rotateN keys fresh n (rotate_key keys (fresh n) s).2

/-- Outcome of one raw `model.generate_content` call: generated text, or an
exception whose text is classified by substring markers. -/
inductive ApiOutcome where
  | success (text : String)
  | failure (err : List Char)
deriving DecidableEq

/-- Dispatcher state threaded through the retry loop: the two process
globals plus a count of API calls made so far (the call counter indexes the
`api` oracle, which yields the outcome of the n-th call). -/
structure DispatchState where
  keyIndex : Nat
  model : String
  calls : Nat
deriving DecidableEq, Repr

/-- `generate_content_safe(prompt)` (orbit.py lines 128-151), fuel = the
remaining loop iterations of `for attempt in range(max_retries)`.
Per attempt: a "404" error rescans the model and continues; a "429" or
"403" error calls `rotate_key()` and continues whether or not rotation
succeeded (sleep(2)/sleep(10) respectively); any other error returns None
at once; an exhausted loop returns None. `fresh` stands for the model
produced by a rescan, `api` for the outcome of each network call. -/
def generate_content_safe (keys : List String) (fresh : Nat → String)
    (api : Nat → ApiOutcome) : Nat → DispatchState → Option String × DispatchState
  | 0, s => (none, s)
  | fuel + 1, s =>
    match api s.calls with
    | ApiOutcome.success t => (some t, { s with calls := s.calls + 1 })
    | ApiOutcome.failure e =>
      let s' : DispatchState := { s with calls := s.calls + 1 }
      if strIn (chars "404") e then
        generate_content_safe keys fresh api fuel { s' with model := fresh s'.calls }
      else if strIn (chars "429") e || strIn (chars "403") e then
        if 1 < keys.length then
          generate_content_safe keys fresh api fuel
            { s' with keyIndex := (s'.keyIndex + 1) % keys.length,
                      model := fresh s'.calls }
        else
          generate_content_safe keys fresh api fuel s'
      else
        (none, s')

/-- `ask_orbit(prompt)` (dashboard.py lines 85-105): a "leaked"(lowercased)
or "403" error rotates and continues only when rotation succeeded, else
falls through to `return None`; a "429" error likewise; any other error
returns None; an exhausted loop returns None. -/
def ask_orbit (keys : List String) (fresh : Nat → String)
    (api : Nat → ApiOutcome) : Nat → DispatchState → Option String × DispatchState
  | 0, s => (none, s)
  | fuel + 1, s =>
    match api s.calls with
    | ApiOutcome.success t => (some t, { s with calls := s.calls + 1 })
    | ApiOutcome.failure e =>
      let s' : DispatchState := { s with calls := s.calls + 1 }
      if strIn (chars "leaked") (lowerStr e) || strIn (chars "403") e then
        if 1 < keys.length then
          ask_orbit keys fresh api fuel
            { s' with keyIndex := (s'.keyIndex + 1) % keys.length,
                      model := fresh s'.calls }
        else
          (none, s')
      else if strIn (chars "429") e then
        if 1 < keys.length then
          ask_orbit keys fresh api fuel
            { s' with keyIndex := (s'.keyIndex + 1) % keys.length,
                      model := fresh s'.calls }
        else
          (none, s')
      else
        (none, s')

/-- The sliding-window limit MAX_HISTORY (dashboard.py line 15). -/
def MAX_HISTORY : Nat := 100

/-- A chat message `{"role": ..., "content": ...}` as a (role, content) pair. -/
def Msg : Type := String × String

/-- Python `l[-n:]` for a fixed positive n: the last n entries (the whole
list when it is shorter), used by the sliding-window trim
`st.session_state.messages[-MAX_HISTORY:]` (dashboard.py line 236). -/
def pyLastN (n : Nat) (l : List Msg) : List Msg :=
  l.drop (l.length - n)

/-- The chat-history value written into the config at the memory-save site:
`config['chat_history'] = st.session_state.messages[-MAX_HISTORY:]`
(dashboard.py line 236). -/
def chatHistoryForSave (messages : List Msg) : List Msg :=
  pyLastN MAX_HISTORY messages

/-- The fields of config.json that the verified call sites read or write
(dashboard.py: difficulty at line 188, chat_history at line 236,
current_units at lines 325/334, interests at line 342). -/
structure ConfigDoc where
  user_name : String
  difficulty : String
  current_units : List String
  interests : List String
  chat_history : List Msg

/-- The remote GitHub copy of config.json: its decoded content together
with the blob SHA that `repo.get_contents("config.json")` reports
(the version token of the store). -/
structure Remote (α : Type) where
  content : α
  sha : Nat

/-- `repo.get_contents("config.json")`: the current content and its SHA
(dashboard.py line 150). -/
def get_contents {α : Type} (r : Remote α) : α × Nat := (r.content, r.sha)

/-- `repo.update_file(..., sha=...)`: the write succeeds exactly when the
supplied SHA is still the current one (GitHub's compare-and-swap on the
blob SHA), producing a new SHA; a stale SHA makes the call raise, which
`save_config` turns into a False return (dashboard.py lines 151-161). -/
def update_file {α : Type} (r : Remote α) (newContent : α) (expectedSha : Nat) :
    Option (Remote α) :=
  if expectedSha = r.sha then some { content := newContent, sha := r.sha + 1 } else none

/-- `save_config(new_config)` (dashboard.py lines 145-168). With a remote
session it fetches the CURRENT contents to obtain a SHA and immediately
writes with that SHA; on a raised write it reports False. Without a remote
session it overwrites the local file unconditionally and returns True.
Result: (returned bool, remote state after, local file after). -/
def save_config {α : Type} (remote : Option (Remote α)) (localFile : α)
    (new_config : α) : Bool × Option (Remote α) × α :=
  match remote with
  | some r =>
    match update_file r new_config (get_contents r).2 with
    | some r2 => (true, some r2, localFile)
    | none => (false, some r, localFile)
  | none => (true, none, new_config)

/-- `load_config()` (dashboard.py lines 127-143, orbit.py lines 162-181):
remote content when a remote session exists, else the local file
(None when that is missing too). -/
def load_config {α : Type} (remote : Option (Remote α)) (localFile : Option α) :
    Option α :=
  match remote with
  | some r => some r.content
  | none => localFile

/-- The save performed when the sidebar difficulty changes
(dashboard.py lines 187-190): the difficulty field is replaced and the
document is saved as-is — chat_history is not touched there. -/
def difficultySiteSave (remote : Option (Remote ConfigDoc)) (localFile : ConfigDoc)
    (config : ConfigDoc) (newDiff : String) : Bool × Option (Remote ConfigDoc) × ConfigDoc :=
  save_config remote localFile { config with difficulty := newDiff }

/-- The save performed after a chat turn (dashboard.py lines 233-239): the
trimmed message list is written into chat_history and the document saved. -/
def chatSiteSave (remote : Option (Remote ConfigDoc)) (localFile : ConfigDoc)
    (config : ConfigDoc) (messages : List Msg) :
    Bool × Option (Remote ConfigDoc) × ConfigDoc :=
  save_config remote localFile { config with chat_history := chatHistoryForSave messages }

/-- The four mutually exclusive actions of `send_chaos` (orbit.py 196-281). -/
inductive Action where
  | silence
  | fact
  | quiz
  | announcement
deriving DecidableEq, Repr

/-- The band dispatch of `send_chaos` on the rolled value
(orbit.py lines 196, 201, 212, 280): `roll <= 50` silence,
`51 <= roll <= 85` fact, `86 <= roll <= 98` quiz, else announcement. -/
def sendChaosAction (roll : Nat) : Action :=
  if roll ≤ 50 then Action.silence
  else if 51 ≤ roll ∧ roll ≤ 85 then Action.fact
  else if 86 ≤ roll ∧ roll ≤ 98 then Action.quiz
  else Action.announcement

/-- The roll selection of `send_chaos` (orbit.py lines 191-193): `--quiz`
forces 90, else `--fact` forces 60, else the uniform draw is used. -/
def chaosRoll (argvHasQuiz argvHasFact : Bool) (draw : Nat) : Nat :=
  if argvHasQuiz then 90 else if argvHasFact then 60 else draw

/-- The banded-action property of a single roll value: each action is taken
exactly on its documented inclusive band. -/
def BandSpec (roll : Nat) : Prop :=
  (sendChaosAction roll = Action.silence ↔ roll ≤ 50) ∧
  (sendChaosAction roll = Action.fact ↔ 51 ≤ roll ∧ roll ≤ 85) ∧
  (sendChaosAction roll = Action.quiz ↔ 86 ≤ roll ∧ roll ≤ 98) ∧
  (sendChaosAction roll = Action.announcement ↔ 99 ≤ roll)

instance (roll : Nat) : Decidable (BandSpec roll) := by
  unfold BandSpec; infer_instance

/-- Observable events of the quiz poll loop (orbit.py lines 260-273):
a successfully sent poll for question i, the fixed `time.sleep(2)` that
follows a successful send inside the try block, and the caught-and-printed
failure for question i. -/
inductive PollEvent where
  | polled (i : Nat)
  | slept
  | failReported (i : Nat)
deriving DecidableEq, Repr

/-- The body of `for i, q in enumerate(data)` (orbit.py lines 260-273) over
the index list: each iteration is wrapped in its own try/except, so a send
failure is reported and the loop continues with the next question;
a successful send is followed by the fixed delay. `send i` tells whether
the i-th `bot.send_poll` call succeeds. -/
def sendPollLoop (send : Nat → Bool) : List Nat → List PollEvent
  | [] => []
  | i :: rest =>
    (if send i then [PollEvent.polled i, PollEvent.slept]
     else [PollEvent.failReported i]) ++ sendPollLoop send rest

/-- The whole poll-emission pass over a parsed question batch. -/
def runQuizEmission {α : Type} (send : Nat → Bool) (qs : List α) : List PollEvent :=
  sendPollLoop send (List.range qs.length)

/-- Decoded JSON values, the result type of `json.loads`. -/
inductive Json where
  | null
  | bool (b : Bool)
  | num (n : Int)
  | str (s : List Char)
  | arr (elems : List Json)
  | obj (fields : List (List Char × Json))

/-- JSON whitespace skipping. -/
def skipWs (cs : List Char) : List Char :=
  cs.dropWhile (fun c => c = ' ' || c = '\n' || c = '\t' || c = '\r')

/-- Scan a JSON string body (no escape sequences, which the verified inputs
do not use) up to the closing quote; returns the body and the rest. -/
def parseStr : List Char → Option (List Char × List Char)
  | [] => none
  | c :: rest =>
    if c = '"' then some ([], rest)
    else (parseStr rest).map (fun p => (c :: p.1, p.2))

/-- Scan a run of decimal digits, accumulating their value. -/
def parseDigits : List Char → Nat → Nat × List Char
  | [], acc => (acc, [])
  | c :: rest, acc =>
    if c.isDigit then parseDigits rest (acc * 10 + (c.toNat - 48))
    else (acc, c :: rest)

/-- Mode of the single-function recursive-descent JSON reader: reading one
value, the remaining elements of an array, or the remaining fields of an
object (with the already-read part accumulated). -/
inductive PMode where
  | val
  | arrElems (acc : List Json)
  | objFields (acc : List (List Char × Json))

/-- Modelled from the python standard library; `json.loads` used at
orbit.py line 253 and dashboard.py line 270, restricted to the grammar the
verified inputs exercise: objects, arrays, strings without escapes,
integers, true/false/null. Fuel-indexed to stay structural. -/
def parseJson : Nat → PMode → List Char → Option (Json × List Char)
  | 0, _, _ => none
  | fuel + 1, PMode.val, cs =>
    match skipWs cs with
    | [] => none
    | c :: r =>
      if c = '[' then parseJson fuel (PMode.arrElems []) r
      else if c = '\x7b' then parseJson fuel (PMode.objFields []) r
      else if c = '"' then (parseStr r).map (fun p => (Json.str p.1, p.2))
      else if c.isDigit then
        match parseDigits (c :: r) 0 with
        | (n, rest) => some (Json.num (Int.ofNat n), rest)
      else if c = '-' then
        match r with
        | d :: _ =>
          if d.isDigit then
            match parseDigits r 0 with
            | (n, rest) => some (Json.num (-(Int.ofNat n)), rest)
          else none
        | [] => none
      else if (chars "true").isPrefixOf (c :: r) then
        some (Json.bool true, (c :: r).drop 4)
      else if (chars "false").isPrefixOf (c :: r) then
        some (Json.bool false, (c :: r).drop 5)
      else if (chars "null").isPrefixOf (c :: r) then
        some (Json.null, (c :: r).drop 4)
      else none
  | fuel + 1, PMode.arrElems acc, cs =>
    match skipWs cs with
    | [] => none
    | c :: r =>
      if c = ']' then some (Json.arr acc.reverse, r)
      else
        match parseJson fuel PMode.val (c :: r) with
        | none => none
        | some (v, rest) =>
          match skipWs rest with
          | ',' :: r2 => parseJson fuel (PMode.arrElems (v :: acc)) r2
          | ']' :: r2 => some (Json.arr (v :: acc).reverse, r2)
          | _ => none
  | fuel + 1, PMode.objFields acc, cs =>
    match skipWs cs with
    | [] => none
    | c :: r =>
      if c = '\x7d' then some (Json.obj acc.reverse, r)
      else if c = '"' then
        match parseStr r with
        | none => none
        | some (k, r2) =>
          match skipWs r2 with
          | ':' :: r3 =>
            match parseJson fuel PMode.val r3 with
            | none => none
            | some (v, r4) =>
              match skipWs r4 with
              | ',' :: r5 => parseJson fuel (PMode.objFields ((k, v) :: acc)) r5
              | '\x7d' :: r5 => some (Json.obj ((k, v) :: acc).reverse, r5)
              | _ => none
          | _ => none
      else none

/-- Python `hay.replace(needle, repl)` (all non-overlapping occurrences,
left to right), fuel-indexed by the input length. -/
def pyReplaceF (needle repl : List Char) : Nat → List Char → List Char
  | 0, cs => cs
  | _ + 1, [] => []
  | fuel + 1, c :: rest =>
    if needle ≠ [] && needle.isPrefixOf (c :: rest) then
      repl ++ pyReplaceF needle repl fuel ((c :: rest).drop needle.length)
    else
      c :: pyReplaceF needle repl fuel rest

/-- Python `hay.replace(needle, repl)`. -/
def pyReplace (needle repl hay : List Char) : List Char :=
  pyReplaceF needle repl hay.length hay

/-- The fence-stripping applied to the model text before decoding, identical
at both quiz-parse sites:
`text.replace(CODEFENCE_JSON, '').replace(CODEFENCE, '').strip()`
(orbit.py line 252, dashboard.py line 269). -/
def quizClean (text : List Char) : List Char :=
  pyStrip (pyReplace (chars "```") [] (pyReplace (chars "```json") [] text))

/-- The bare-object tolerance at the orbit site only
(orbit.py lines 256-257): `if isinstance(data, dict): data = [data]`. -/
def orbitNormalize : Json → Json
  | Json.obj fs => Json.arr [Json.obj fs]
  | v => v

/-- Decoding as both sites perform it: strip fences, `json.loads`, and
reject trailing garbage as the decoder would. -/
def quizDecode (text : List Char) : Option Json :=
  match parseJson (4 * (quizClean text).length + 8) PMode.val (quizClean text) with
  | none => none
  | some (v, rest) => if skipWs rest = [] then some v else none

/-- The quiz parse of `send_chaos` (orbit.py lines 250-257): fence
stripping, decode, and wrapping of a single bare object in a list. -/
def orbitQuizParse (text : List Char) : Option Json :=
  (quizDecode text).map orbitNormalize

/-- The quiz parse of the dashboard quiz tab (dashboard.py lines 267-271):
fence stripping and decode; the decoded value is stored as-is, with no
bare-object wrapping. -/
def dashboardQuizParse (text : List Char) : Option Json :=
  quizDecode text

/-- True exactly on decoded arrays; used to state what shape each parse
site hands to its consumer. -/
def isArr : Json → Bool
  | Json.arr _ => true
  | _ => false

lemma rotate_key_index (keys : List String) (fresh : String) (s : KeyState)
    (h2 : 2 ≤ keys.length) :
    (rotate_key keys fresh s).2.keyIndex = (s.keyIndex + 1) % keys.length := by
  unfold rotate_key
  rw [if_pos (by omega)]

lemma rotateN_keyIndex (keys : List String) (fresh : Nat → String)
    (h2 : 2 ≤ keys.length) :
    ∀ (n : Nat) (s : KeyState), s.keyIndex < keys.length →
      (rotateN keys fresh n s).keyIndex = (s.keyIndex + n) % keys.length := by
  intro n
  induction n with
  | zero =>
    intro s hs
    simp [rotateN, Nat.mod_eq_of_lt hs]
  | succ n ih =>
    intro s hs
    rw [rotateN, ih _ ?_, rotate_key_index _ _ _ h2, Nat.mod_add_mod]
    · congr 1
      omega
    · rw [rotate_key_index _ _ _ h2]
      exact Nat.mod_lt _ (by omega)

/-- C5: on a pool with at least two credentials, `rotate_key` returns true
and advances the index by one modulo the pool size, so `len(keys)`
rotations restore the original index; on a pool with at most one
credential it returns false and leaves the state unchanged. -/
theorem rotate_contract (keys : List String) (fresh : Nat → String) (s : KeyState)
    (hidx : s.keyIndex < keys.length) (h2 : 2 ≤ keys.length) :
    (rotate_key keys (fresh 0) s).1 = true ∧
    (rotate_key keys (fresh 0) s).2.keyIndex = (s.keyIndex + 1) % keys.length ∧
    (rotateN keys fresh keys.length s).keyIndex = s.keyIndex ∧
    (∀ (keys2 : List String) (f : String) (s2 : KeyState), keys2.length ≤ 1 →
      rotate_key keys2 f s2 = (false, s2)) := by
  refine ⟨?_, rotate_key_index _ _ _ h2, ?_, ?_⟩
  · unfold rotate_key
    rw [if_pos (by omega)]
  · rw [rotateN_keyIndex keys fresh h2 _ _ hidx, Nat.add_mod_right,
      Nat.mod_eq_of_lt hidx]
  · intro keys2 f s2 hle
    unfold rotate_key
    rw [if_neg (by omega)]

/-- C5 witness: a concrete 3-credential pool starting at index 1. -/
theorem rotate_contract_witness :
    (rotate_key ["a", "b", "c"] "m" ⟨1, "m0"⟩).1 = true ∧
    (rotate_key ["a", "b", "c"] "m" ⟨1, "m0"⟩).2.keyIndex = (1 + 1) % 3 ∧
    (rotateN ["a", "b", "c"] (fun _ => "m") 3 ⟨1, "m0"⟩).keyIndex = 1 ∧
    (∀ (keys2 : List String) (f : String) (s2 : KeyState), keys2.length ≤ 1 →
      rotate_key keys2 f s2 = (false, s2)) :=
  rotate_contract ["a", "b", "c"] (fun _ => "m") ⟨1, "m0"⟩ (by decide) (by decide)

/-- C6 counterexample: rotating a 2-credential pool replaces the cached
model with the fresh `get_valid_model()` result, so the cached ModelHandle
does change: with cached model "model-A" and a rescan yielding "model-B",
the state after `rotate_key` holds "model-B". -/
theorem rotate_model_side_effect_counterexample :
    (rotate_key ["a", "b"] "model-B" ⟨0, "model-A"⟩).2.model = "model-B" ∧
    ("model-B" : String) ≠ "model-A" :=
  ⟨rfl, by decide⟩

/-- C6 amended: on every successful rotation (pool of at least two
credentials), `rotate_key` advances the index AND reassigns the cached
model with a freshly selected one — model selection is re-run on every
rotation, not only after a not-found classification. -/
theorem rotate_model_refresh_amended (keys : List String) (fresh : String)
    (s : KeyState) (h2 : 2 ≤ keys.length) :
    (rotate_key keys fresh s).1 = true ∧
    (rotate_key keys fresh s).2.model = fresh ∧
    (rotate_key keys fresh s).2.keyIndex = (s.keyIndex + 1) % keys.length := by
  unfold rotate_key
  rw [if_pos (by omega)]
  exact ⟨rfl, rfl, rfl⟩

/-- C6 amended witness: concrete 2-credential pool. -/
theorem rotate_model_refresh_amended_witness :
    (rotate_key ["a", "b"] "m1" ⟨0, "m0"⟩).1 = true ∧
    (rotate_key ["a", "b"] "m1" ⟨0, "m0"⟩).2.model = "m1" ∧
    (rotate_key ["a", "b"] "m1" ⟨0, "m0"⟩).2.keyIndex = (0 + 1) % 2 :=
  rotate_model_refresh_amended ["a", "b"] "m1" ⟨0, "m0"⟩ (by decide)

/-- C7 counterexample: the key list built from "a,b,a" keeps the duplicate
"a" — construction does not deduplicate. -/
theorem buildKeys_duplicates_counterexample :
    buildKeys (chars "a,b,a") = [chars "a", chars "b", chars "a"] ∧
    ¬ (buildKeys (chars "a,b,a")).Nodup := by
  exact ⟨rfl, by decide⟩

lemma splitComma_ne_nil : ∀ cs : List Char, splitComma cs ≠ [] := by
  intro cs
  induction cs with
  | nil => simp [splitComma]
  | cons c rest ih =>
    unfold splitComma
    by_cases h : c = ','
    · simp [h]
    · rw [if_neg h]
      cases hsc : splitComma rest with
      | nil => simp
      | cons p ps => simp

/-- C7 amended: building the pool splits the raw key string on commas and
strips whitespace from each entry but performs no deduplication
(duplicates are retained in order); the resulting list is empty exactly
when the raw string is empty, which is exactly when startup aborts with
the fatal no-keys error. -/
theorem buildKeys_amended :
    (∀ s : List Char, buildKeys s = [] ↔ s = []) ∧
    buildKeys (chars "a,b,a") = [chars "a", chars "b", chars "a"] ∧
    buildKeys (chars " a , b ") = [chars "a", chars "b"] := by
  refine ⟨?_, rfl, rfl⟩
  intro s
  constructor
  · intro h
    by_contra hne
    unfold buildKeys at h
    rw [if_neg hne] at h
    exact splitComma_ne_nil s (List.map_eq_nil_iff.mp h)
  · intro h
    subst h
    rfl

/-- C8: on every roll in [1,100] the chaos roller takes exactly the action
of its documented inclusive band (BandSpec), the boundary values 50, 51,
85, 86, 98, 99 (and 100) route to the documented bands, and the forced
modes pin the roll inside the quiz band (90) and the fact band (60). -/
theorem send_chaos_bands (roll : Nat) (h1 : 1 ≤ roll) (h100 : roll ≤ 100) :
    BandSpec roll ∧
    sendChaosAction 50 = Action.silence ∧
    sendChaosAction 51 = Action.fact ∧
    sendChaosAction 85 = Action.fact ∧
    sendChaosAction 86 = Action.quiz ∧
    sendChaosAction 98 = Action.quiz ∧
    sendChaosAction 99 = Action.announcement ∧
    sendChaosAction 100 = Action.announcement ∧
    (∀ (b : Bool) (d : Nat), sendChaosAction (chaosRoll true b d) = Action.quiz) ∧
    (∀ d : Nat, sendChaosAction (chaosRoll false true d) = Action.fact) := by
  refine ⟨?_, rfl, rfl, rfl, rfl, rfl, rfl, rfl, fun b d => rfl, fun d => rfl⟩
  have H : ∀ r, r < 101 → 1 ≤ r → BandSpec r := by decide
  exact H roll (by omega) h1

/-- C8 witness: the boundary-heavy roll 90 lands in the quiz band. -/
theorem send_chaos_bands_witness :
    BandSpec 90 ∧
    sendChaosAction 50 = Action.silence ∧
    sendChaosAction 51 = Action.fact ∧
    sendChaosAction 85 = Action.fact ∧
    sendChaosAction 86 = Action.quiz ∧
    sendChaosAction 98 = Action.quiz ∧
    sendChaosAction 99 = Action.announcement ∧
    sendChaosAction 100 = Action.announcement ∧
    (∀ (b : Bool) (d : Nat), sendChaosAction (chaosRoll true b d) = Action.quiz) ∧
    (∀ d : Nat, sendChaosAction (chaosRoll false true d) = Action.fact) :=
  send_chaos_bands 90 (by decide) (by decide)

lemma gcs_auth_step (keys : List String) (fresh : Nat → String)
    (api : Nat → ApiOutcome) (fuel : Nat) (s : DispatchState) (e : List Char)
    (hapi : api s.calls = ApiOutcome.failure e)
    (h404 : strIn (chars "404") e = false)
    (h403 : strIn (chars "403") e = true)
    (hlen : keys.length ≤ 1) :
    generate_content_safe keys fresh api (fuel + 1) s =
      generate_content_safe keys fresh api fuel { s with calls := s.calls + 1 } := by
  have hlt : ¬ 1 < keys.length := by omega
  simp only [generate_content_safe, hapi, h404, h403, Bool.or_true, Bool.false_eq_true,
    if_false, if_true, ite_true, ite_false, hlt]

lemma gcs_auth_all (keys : List String) (fresh : Nat → String) (e : List Char)
    (h404 : strIn (chars "404") e = false)
    (h403 : strIn (chars "403") e = true)
    (hlen : keys.length ≤ 1) :
    ∀ (fuel : Nat) (s : DispatchState),
      generate_content_safe keys fresh (fun _ => ApiOutcome.failure e) fuel s
        = (none, { s with calls := s.calls + fuel }) := by
  intro fuel
  induction fuel with
  | zero => intro s; rfl
  | succ n ih =>
    intro n2
    rw [gcs_auth_step keys fresh _ n n2 e rfl h404 h403 hlen, ih]
    have hc : n2.calls + 1 + n = n2.calls + (n + 1) := by omega
    simp [hc]

lemma ask_orbit_auth_stop (k : String) (fresh : Nat → String)
    (api : Nat → ApiOutcome) (fuel : Nat) (s : DispatchState) (e : List Char)
    (hapi : api s.calls = ApiOutcome.failure e)
    (h403 : strIn (chars "403") e = true) :
    ask_orbit [k] fresh api (fuel + 1) s = (none, { s with calls := s.calls + 1 }) := by
  simp only [ask_orbit, hapi, h403, Bool.or_true, if_true, ite_true,
    List.length_singleton, Nat.lt_irrefl, if_false, ite_false]

/-- C1 counterexample: on the 1-credential pool ["k1"] with every call
failing "403 Forbidden", orbit's `generate_content_safe` makes 3 API calls
— more than the stated bound len(credentials) + 1 = 2 — and returns None,
the very same result value a fatal error ("400 bad request") produces, so
no distinguishable AuthExhausted failure exists. -/
theorem generate_auth_exhaustion_counterexample :
    generate_content_safe ["k1"] (fun _ => "m")
        (fun _ => ApiOutcome.failure (chars "403 Forbidden")) 3 ⟨0, "m0", 0⟩
      = (none, ⟨0, "m0", 3⟩) ∧
    generate_content_safe ["k1"] (fun _ => "m")
        (fun _ => ApiOutcome.failure (chars "400 bad request")) 3 ⟨0, "m0", 0⟩
      = (none, ⟨0, "m0", 1⟩) ∧
    List.length ["k1"] + 1 < 3 :=
  ⟨by decide, by decide, by decide⟩

/-- C1 amended: on a 1-credential pool where every attempt fails with an
auth-classified error (marker "403"), orbit's `generate_content_safe`
performs exactly max_retries = 3 attempts and returns None — a value
indistinguishable from the fatal-error result — while the dashboard's
`ask_orbit` returns the same None after a single attempt (rotation fails
and it falls through to the fatal return). -/
theorem generate_auth_exhaustion_amended (k : String) (fresh : Nat → String)
    (s : DispatchState) (e : List Char)
    (h403 : strIn (chars "403") e = true)
    (h404 : strIn (chars "404") e = false) :
    generate_content_safe [k] fresh (fun _ => ApiOutcome.failure e) 3 s
      = (none, { s with calls := s.calls + 3 }) ∧
    ask_orbit [k] fresh (fun _ => ApiOutcome.failure e) 3 s
      = (none, { s with calls := s.calls + 1 }) := by
  constructor
  · exact gcs_auth_all [k] fresh e h404 h403 (by simp) 3 s
  · exact ask_orbit_auth_stop k fresh _ 2 s e rfl h403

/-- C1 amended witness: the concrete all-auth run on pool ["k1"]. -/
theorem generate_auth_exhaustion_amended_witness :
    generate_content_safe ["k1"] (fun _ => "m")
        (fun _ => ApiOutcome.failure (chars "403 Forbidden")) 3 ⟨0, "m0", 0⟩
      = (none, ⟨0, "m0", 0 + 3⟩) ∧
    ask_orbit ["k1"] (fun _ => "m")
        (fun _ => ApiOutcome.failure (chars "403 Forbidden")) 3 ⟨0, "m0", 0⟩
      = (none, ⟨0, "m0", 0 + 1⟩) :=
  generate_auth_exhaustion_amended "k1" (fun _ => "m") ⟨0, "m0", 0⟩
    (chars "403 Forbidden") (by decide) (by decide)

/-- C2 counterexample: a transient "503 Service Unavailable" (and likewise
"500 Internal Server Error") failure makes `generate_content_safe` abort
after a single API call with None, even on a 2-credential pool with retry
fuel remaining — it is not retried with the same credential. -/
theorem transient_error_counterexample :
    generate_content_safe ["k1", "k2"] (fun _ => "m")
        (fun _ => ApiOutcome.failure (chars "503 Service Unavailable")) 3 ⟨0, "m0", 0⟩
      = (none, ⟨0, "m0", 1⟩) ∧
    generate_content_safe ["k1", "k2"] (fun _ => "m")
        (fun _ => ApiOutcome.failure (chars "500 Internal Server Error")) 3 ⟨0, "m0", 0⟩
      = (none, ⟨0, "m0", 1⟩) :=
  ⟨by decide, by decide⟩

/-- C2 amended: an error whose text carries none of the handled markers
("404", "429", "403" — which is the case for plain "500"/"503" server
errors) is classified as fatal at both dispatchers: the call aborts
immediately after that one attempt, returning None with the key index and
model untouched, regardless of remaining retries. -/
theorem transient_error_fatal_amended (keys : List String) (fresh : Nat → String)
    (api : Nat → ApiOutcome) (fuel : Nat) (s : DispatchState) (e : List Char)
    (hapi : api s.calls = ApiOutcome.failure e)
    (h404 : strIn (chars "404") e = false)
    (h429 : strIn (chars "429") e = false)
    (h403 : strIn (chars "403") e = false)
    (hleaked : strIn (chars "leaked") (lowerStr e) = false) :
    generate_content_safe keys fresh api (fuel + 1) s
      = (none, { s with calls := s.calls + 1 }) ∧
    ask_orbit keys fresh api (fuel + 1) s
      = (none, { s with calls := s.calls + 1 }) := by
  constructor
  · simp only [generate_content_safe, hapi, h404, h429, h403, Bool.or_self,
      Bool.false_eq_true, if_false, ite_false]
  · simp only [ask_orbit, hapi, h404, h429, h403, hleaked, Bool.or_self,
      Bool.false_eq_true, if_false, ite_false]

/-- C2 amended witness: the concrete "503 Service Unavailable" run. -/
theorem transient_error_fatal_amended_witness :
    generate_content_safe ["k1", "k2"] (fun _ => "m")
        (fun _ => ApiOutcome.failure (chars "503 Service Unavailable")) (2 + 1) ⟨0, "m0", 0⟩
      = (none, ⟨0, "m0", 0 + 1⟩) ∧
    ask_orbit ["k1", "k2"] (fun _ => "m")
        (fun _ => ApiOutcome.failure (chars "503 Service Unavailable")) (2 + 1) ⟨0, "m0", 0⟩
      = (none, ⟨0, "m0", 0 + 1⟩) :=
  transient_error_fatal_amended ["k1", "k2"] (fun _ => "m")
    (fun _ => ApiOutcome.failure (chars "503 Service Unavailable")) 2 ⟨0, "m0", 0⟩
    (chars "503 Service Unavailable") rfl (by decide) (by decide) (by decide) (by decide)

/-- C3 counterexample: the document 0 is loaded while the remote is at
version token (SHA) 0; the remote is then concurrently changed to content 1
at SHA 1; saving 2 afterwards nevertheless returns true — not a
ConfigSaveConflict — and the remote ends at content 2: the concurrent
change 1 is overwritten, because `save_config` reads the CURRENT SHA just
before writing instead of using the one observed at load. -/
theorem save_conflict_counterexample :
    load_config (some ({ content := 0, sha := 0 } : Remote Nat)) none = some 0 ∧
    save_config (some ({ content := 1, sha := 1 } : Remote Nat)) 7 2
      = (true, some { content := 2, sha := 2 }, 7) :=
  ⟨rfl, rfl⟩

/-- C3 amended: `save_config` performs read-before-write against the state
of the remote AT SAVE TIME: whatever the remote holds (including a document
concurrently modified since `load`), the remote write succeeds, returns
true and replaces the remote content; no stale-token conflict is ever
reported for changes made between load and save, and with no remote session
the local file is overwritten unconditionally. -/
theorem save_config_current_token_amended {α : Type} (r : Remote α)
    (localFile new_config : α) :
    save_config (some r) localFile new_config
      = (true, some { content := new_config, sha := r.sha + 1 }, localFile) ∧
    save_config (none : Option (Remote α)) localFile new_config
      = (true, none, new_config) := by
  constructor
  · simp [save_config, update_file, get_contents]
  · rfl

/-- Concrete config document with an oversized (105-entry) chat history,
as an externally written config.json could contain. -/
def oversizedDoc : ConfigDoc :=
  { user_name := "u", difficulty := "Medium (Standard)", current_units := [],
    interests := [], chat_history := List.replicate 105 ("user", "hi") }

/-- C4 counterexample: the difficulty-change save path passes the document
to `save_config` without touching chat_history, so saving a document whose
chat_history has 105 entries persists all 105 of them — the persisted
length is not 100 and exceeds MAX_HISTORY: the trim is not applied at
every save. -/
theorem save_untrimmed_history_counterexample :
    MAX_HISTORY < 105 ∧
    (difficultySiteSave (some { content := oversizedDoc, sha := 0 }) oversizedDoc
        oversizedDoc "Easy (Review)").1 = true ∧
    (difficultySiteSave (some { content := oversizedDoc, sha := 0 }) oversizedDoc
        oversizedDoc "Easy (Review)").2.1
      = some { content := { oversizedDoc with difficulty := "Easy (Review)" }, sha := 1 } ∧
    ({ oversizedDoc with difficulty := "Easy (Review)" } : ConfigDoc).chat_history.length
      = 105 := by
  refine ⟨by decide, rfl, rfl, by simp [oversizedDoc]⟩

/-- C4 amended: at the chat-memory save site — the only site that writes
chat_history — the message list is trimmed to its last MAX_HISTORY = 100
entries before the save: from 105 messages the persisted document holds
exactly the 100 most recent entries in their original relative order
(the drop of the oldest 5), and the history written by that site never
exceeds MAX_HISTORY for any message list; `save_config` itself persists
chat_history unchanged. -/
theorem chat_history_trim_amended (r : Remote ConfigDoc)
    (localFile config : ConfigDoc) (messages : List Msg)
    (h : messages.length = 105) :
    chatHistoryForSave messages = messages.drop 5 ∧
    (chatHistoryForSave messages).length = 100 ∧
    (chatSiteSave (some r) localFile config messages).2.1
      = some { content := { config with chat_history := chatHistoryForSave messages },
               sha := r.sha + 1 } ∧
    (∀ ms : List Msg, (chatHistoryForSave ms).length ≤ MAX_HISTORY) := by
  refine ⟨?_, ?_, ?_, ?_⟩
  · simp [chatHistoryForSave, pyLastN, MAX_HISTORY, h]
  · simp [chatHistoryForSave, pyLastN, MAX_HISTORY, h]
  · simp [chatSiteSave, save_config, update_file, get_contents]
  · intro ms
    simp only [chatHistoryForSave, pyLastN, MAX_HISTORY, List.length_drop]
    omega

/-- Concrete minimal config document for the C4 witness. -/
def plainDoc : ConfigDoc :=
  { user_name := "u", difficulty := "Medium (Standard)", current_units := [],
    interests := [], chat_history := [] }

/-- C4 witness: the trim applied to a concrete 105-message list. -/
theorem chat_history_trim_amended_witness :
    chatHistoryForSave (List.replicate 105 ("user", "hi"))
      = (List.replicate 105 ("user", "hi")).drop 5 ∧
    (chatHistoryForSave (List.replicate 105 ("user", "hi"))).length = 100 ∧
    (chatSiteSave (some { content := plainDoc, sha := 0 }) plainDoc plainDoc
        (List.replicate 105 ("user", "hi"))).2.1
      = some { content := { plainDoc with
                 chat_history := chatHistoryForSave (List.replicate 105 ("user", "hi")) },
               sha := 0 + 1 } ∧
    (∀ ms : List Msg, (chatHistoryForSave ms).length ≤ MAX_HISTORY) :=
  chat_history_trim_amended { content := plainDoc, sha := 0 } plainDoc plainDoc
    (List.replicate 105 ("user", "hi")) (by simp)

/-- The spec's fenced quiz example, as the model text handed to the parse
sites. -/
def specExample : List Char :=
  chars "```json\n[\x7b\"question\":\"Q\",\"options\":[\"A\",\"B\"],\"correct_id\":0,\"explanation\":\"E\"\x7d]\n```"

/-- The decoded question object of the spec's example. -/
def specQuestion : Json :=
  Json.obj [(chars "question", Json.str (chars "Q")),
            (chars "options", Json.arr [Json.str (chars "A"), Json.str (chars "B")]),
            (chars "correct_id", Json.num 0),
            (chars "explanation", Json.str (chars "E"))]

/-- A model response that is a single bare JSON object (no fences). -/
def bareExample : List Char :=
  chars "\x7b\"q\":\"Q\",\"o\":[\"A\",\"B\"],\"a\":\"A\",\"e\":\"E\"\x7d"

/-- The decoded bare object of `bareExample`. -/
def bareQuestion : Json :=
  Json.obj [(chars "q", Json.str (chars "Q")),
            (chars "o", Json.arr [Json.str (chars "A"), Json.str (chars "B")]),
            (chars "a", Json.str (chars "A")),
            (chars "e", Json.str (chars "E"))]

/-- C9 counterexample: for a decoded single bare object, the dashboard quiz
tab's parse (dashboard.py lines 267-271) hands its consumer the bare
object itself — not a one-element list — while the orbit site does wrap
it, so the bare-object wrapping does not happen at every quiz-parsing call
site. -/
theorem quiz_parse_counterexample :
    (dashboardQuizParse bareExample).isSome = true ∧
    isArr ((dashboardQuizParse bareExample).getD Json.null) = false ∧
    isArr ((orbitQuizParse bareExample).getD Json.null) = true :=
  ⟨rfl, rfl, rfl⟩

/-- C9 amended: both quiz-parse sites strip the ```json fences before
decoding, and the spec's fenced example parses at both sites to exactly one
question with options ["A","B"] and correct_id 0; but only the orbit batch
site wraps a decoded bare object in a one-element list — the dashboard site
stores the decoded bare object as-is. -/
theorem quiz_parse_amended :
    orbitQuizParse specExample = some (Json.arr [specQuestion]) ∧
    dashboardQuizParse specExample = some (Json.arr [specQuestion]) ∧
    orbitQuizParse bareExample = some (Json.arr [bareQuestion]) ∧
    dashboardQuizParse bareExample = some bareQuestion :=
  ⟨rfl, rfl, rfl, rfl⟩

lemma sendPollLoop_mem (send : Nat → Bool) :
    ∀ (l : List Nat) (i : Nat), i ∈ l →
      (send i = true →
        List.IsInfix [PollEvent.polled i, PollEvent.slept] (sendPollLoop send l)) ∧
      (send i = false → PollEvent.failReported i ∈ sendPollLoop send l) := by
  intro l
  induction l with
  | nil => intro i hi; cases hi
  | cons j rest ih =>
    intro i hi
    rcases List.mem_cons.mp hi with h | h
    · subst h
      constructor
      · intro hs
        refine ⟨[], sendPollLoop send rest, ?_⟩
        simp [sendPollLoop, hs]
      · intro hs
        simp [sendPollLoop, hs]
    · obtain ⟨h1, h2⟩ := ih i h
      constructor
      · intro hs
        obtain ⟨pre, post, heq⟩ := h1 hs
        refine ⟨(if send j then [PollEvent.polled j, PollEvent.slept]
                 else [PollEvent.failReported j]) ++ pre, post, ?_⟩
        simp only [sendPollLoop, List.append_assoc, heq]
      · intro hs
        rw [sendPollLoop]
        exact List.mem_append_right _ (h2 hs)

/-- C10: in the quiz poll-emission loop, every question index below the
batch length is individually attempted no matter how the other sends fare:
if its own send succeeds, its poll event occurs immediately followed by the
fixed inter-message delay; if its own send fails, the failure is reported
and the loop still reaches all remaining questions (the property holds for
every index regardless of the other outcomes of `send`). -/
theorem poll_loop_guarded (send : Nat → Bool) (qs : List Json) (i : Nat)
    (hi : i < qs.length) :
    (send i = true →
      List.IsInfix [PollEvent.polled i, PollEvent.slept] (runQuizEmission send qs)) ∧
    (send i = false → PollEvent.failReported i ∈ runQuizEmission send qs) :=
  sendPollLoop_mem send (List.range qs.length) i (List.mem_range.mpr hi)

/-- C10 witness: in a 3-question batch where the middle send fails, the
last question is still emitted with its delay. -/
theorem poll_loop_guarded_witness :
    ((fun n => n != 1) 2 = true →
      List.IsInfix [PollEvent.polled 2, PollEvent.slept]
        (runQuizEmission (fun n => n != 1) [Json.null, Json.null, Json.null])) ∧
    ((fun n => n != 1) 2 = false →
      PollEvent.failReported 2
        ∈ runQuizEmission (fun n => n != 1) [Json.null, Json.null, Json.null]) :=
  poll_loop_guarded (fun n => n != 1) [Json.null, Json.null, Json.null] 2 (by decide)

end Orbit
